import Mathlib

/-!
Shallow embedding of the MARS Scheduling and Execution Engine.

Timestamps are modelled as integer numbers of minutes since an arbitrary
epoch; one day is 1440 minutes. Every time value appearing in the claims
(HH:MM clock strings, window bounds, the 5 to 8 minute poll cadence, the
seven day advance) is minute-aligned, so minute granularity is lossless
here. A Python `datetime` value is modelled by the structure `DT` holding
its date (`day`, days since the epoch) and its time-of-day (`tod`, minutes
within the day), exactly the decomposition `now.date()` / `now.time()`
that the source uses. The random draw `random.uniform(5, 8)` of minutes is
modelled by an explicit parameter `r` constrained to `5 <= r <= 8` where a
claim needs the bound.

Sources embedded: src/app/scheduler.py, src/app/domain/scheduling/
time_calculator.py, src/app/domain/scheduling/schedule_executor.py,
src/app/services/browser_service.py, src/app/infrastructure/persistence/
schedule_repository.py.
-/

/-- Schedule status values, from the status strings used throughout
src/app/scheduler.py: pending, active, download_started, completed. -/
inductive Status where
  | pending
  | active
  | downloadStarted
  | completed
deriving DecidableEq, Repr

/-- A wall-clock instant, decomposed as the source code does with
`now.date()` and `now.time()`: `day` counts days since the epoch and `tod`
is the time of day in minutes (a real datetime satisfies `0 <= tod < 1440`). -/
structure DT where
  day : Int
  tod : Int
deriving DecidableEq, Repr

/-- Absolute timestamp (in minutes since the epoch) of a `DT`. Python
datetime comparison agrees with comparison of these absolute values. -/
def DT.abs (t : DT) : Int := (t.day : Int) * 1440 + t.tod

/-- The length of one day, in minutes. -/
def dayLen : Int := 1440

/-- A schedule record (src/app/scheduler.py add_schedule, section 3 of the
spec). Window times are stored parsed: for a daily schedule they are
minutes-of-day, for a regular schedule absolute timestamps; `none` models a
string that `datetime.fromisoformat` / `split(':')` fails to parse. -/
structure Sched where
  sid : String
  daily : Bool
  rep : Bool
  startTime : Option Int
  endTime : Option Int
  status : Status
  nextCheck : Option Int
  lastCheck : Option Int
  activeBrowserId : Option String
  manualStop : Bool
deriving DecidableEq, Repr

namespace DailyCalc

/-- Window resolution shared by Scheduler._check_daily_schedule
(scheduler.py lines 353-385), Scheduler._update_next_check (460-484) and
DailyTimeCalculator (time_calculator.py lines 63-95, 147-170): today's
start/end datetimes, with the midnight-spanning adjustment. Returns the
resolved absolute (start_dt, end_dt) pair. -/
def resolveWindow (startM endM : Int) (now : DT) : Int × Int :=
  let startAbs : Int := (now.day : Int) * dayLen + startM
  let endAbs : Int := (now.day : Int) * dayLen + endM
  -- spans_midnight = end_hour < start_hour or (equal hour and end_min < start_min)
  let spans : Bool := decide (endM < startM)
  if spans then
    if now.tod < startM then
      (((now.day : Int) - 1) * dayLen + startM, endAbs)
    else
      (startAbs, endAbs + dayLen)
  else
    (startAbs, endAbs)

/-- `spans_midnight` as computed from the HH:MM pair; with times as
minutes-of-day this is exactly `endM < startM`. -/
def spansMidnight (startM endM : Int) : Bool := decide (endM < startM)

/-- DailyTimeCalculator.calculate_next_check (time_calculator.py lines
133-198), identical to the daily branch of Scheduler._update_next_check
(scheduler.py lines 460-512). Returns the new `next_check` value; `r` is
the `random.uniform(5, 8)` draw in minutes. -/
def calculate_next_check (startM endM : Int) (now : DT) (r : Int) : Option Int :=
  let w := resolveWindow startM endM now
  let startDt := w.1
  let endDt := w.2
  if now.abs < startDt then
    some startDt
  else if startDt ≤ now.abs ∧ now.abs ≤ endDt then
    let nextDt := now.abs + r
    some (if endDt < nextDt then endDt else nextDt)
  else
    if spansMidnight startM endM ∧ now.tod < startM then
      some ((now.day : Int) * dayLen + startM)
    else
      some (((now.day : Int) + 1) * dayLen + startM)

end DailyCalc

namespace RegularCalc

/-- RegularTimeCalculator.calculate_next_check (time_calculator.py lines
263-296), identical to the regular branch of Scheduler._update_next_check
(scheduler.py lines 514-535). `startT`, `endT`, `nowAbs` are absolute
timestamps; `r` is the `random.uniform(5, 8)` draw in minutes. -/
def calculate_next_check (startT endT nowAbs r : Int) : Option Int :=
  if nowAbs < startT then
    some startT
  else if startT ≤ nowAbs ∧ nowAbs ≤ endT then
    let nextDt := nowAbs + r
    some (if endT < nextDt then endT else nextDt)
  else
    none

end RegularCalc

namespace Scheduler

/-- Scheduler._check_daily_schedule (scheduler.py lines 343-446).
`startM`/`endM` are the parsed HH:MM values in minutes of day, `dlActive`
models `self._is_download_active` (the external download-status signal),
`r` the `random.uniform(5, 8)` draw used when `_update_next_check` runs.
Returns the updated schedule and whether `_perform_check` dispatched a
check task (which itself immediately calls `_update_next_check`). -/
def check_daily_schedule (s : Sched) (startM endM : Int) (now : DT)
    (dlActive : Option String → Bool) (r : Int) : Sched × Bool :=
  let w := DailyCalc.resolveWindow startM endM now
  let startDt := w.1
  let endDt := w.2
  if startDt ≤ now.abs ∧ now.abs ≤ endDt then
    -- in the active window
    if s.status = Status.downloadStarted ∧ dlActive s.activeBrowserId then
      -- download still running, keep status and skip check
      (s, false)
    else
      -- for a dead download: resume checking (note: manual_stop not consulted)
      let s1 : Sched :=
        if s.status = Status.downloadStarted then
          { s with status := Status.active, activeBrowserId := none }
        else s
      -- ensure status is active, but only if next_check is within current window
      let s2 : Sched :=
        if s1.status ≠ Status.active then
          match s1.nextCheck with
          | some nc => if nc ≤ endDt then { s1 with status := Status.active } else s1
          | none => { s1 with status := Status.active }
        else s1
      -- check if it is time to check the stream
      match s2.nextCheck with
      | none =>
          ({ s2 with nextCheck := DailyCalc.calculate_next_check startM endM now r }, true)
      | some nc =>
          if nc ≤ now.abs then
            ({ s2 with nextCheck := DailyCalc.calculate_next_check startM endM now r }, true)
          else (s2, false)
  else if now.abs < startDt then
    -- window has not started yet
    let s1 : Sched := { s with status := Status.pending }
    match s1.nextCheck with
    | none =>
        ({ s1 with nextCheck := DailyCalc.calculate_next_check startM endM now r }, false)
    | some nc =>
        if nc < now.abs then
          ({ s1 with nextCheck := DailyCalc.calculate_next_check startM endM now r }, false)
        else (s1, false)
  else
    -- window has passed: always reset to pending for the next day
    if s.status = Status.active ∨ s.status = Status.downloadStarted then
      ({ s with status := Status.pending, lastCheck := none, activeBrowserId := none,
                manualStop := false,
                nextCheck := DailyCalc.calculate_next_check startM endM now r }, false)
    else (s, false)

/-- Scheduler._reschedule_next_week (scheduler.py lines 537-554): advance
both window bounds by seven days, reset to pending, clear the tracked
browser id and the manual stop flag, recompute next_check on the new
window. -/
def reschedule_next_week (s : Sched) (startT endT nowAbs r : Int) : Sched :=
  let newStart := startT + 7 * dayLen
  let newEnd := endT + 7 * dayLen
  { s with startTime := some newStart, endTime := some newEnd,
           status := Status.pending, activeBrowserId := none, manualStop := false,
           nextCheck := RegularCalc.calculate_next_check newStart newEnd nowAbs r }

/-- The regular (non-daily) branch of Scheduler._check_schedules
(scheduler.py lines 271-336), with the same conventions as
`check_daily_schedule`. -/
def check_regular_schedule (s : Sched) (startT endT : Int) (nowAbs : Int)
    (dlActive : Option String → Bool) (r : Int) : Sched × Bool :=
  if endT < nowAbs then
    -- window passed
    if s.rep then (reschedule_next_week s startT endT nowAbs r, false)
    else
      let s1 : Sched :=
        if s.status ≠ Status.downloadStarted then { s with status := Status.completed }
        else s
      -- clear flags when window ends
      ({ s1 with activeBrowserId := none, manualStop := false }, false)
  else if startT ≤ nowAbs ∧ nowAbs ≤ endT then
    -- currently in the active window
    if s.status = Status.downloadStarted ∧ dlActive s.activeBrowserId then
      (s, false)
    else
      let s1 : Sched :=
        if s.status = Status.downloadStarted then
          { s with status := Status.active, activeBrowserId := none }
        else s
      let s2 : Sched :=
        if s1.status ≠ Status.active then
          match s1.nextCheck with
          | some nc => if nc ≤ endT then { s1 with status := Status.active } else s1
          | none => { s1 with status := Status.active }
        else s1
      match s2.nextCheck with
      | none =>
          ({ s2 with nextCheck := RegularCalc.calculate_next_check startT endT nowAbs r }, true)
      | some nc =>
          if nc ≤ nowAbs then
            ({ s2 with nextCheck := RegularCalc.calculate_next_check startT endT nowAbs r }, true)
          else (s2, false)
  else
    -- window has not started yet
    let s1 : Sched := { s with status := Status.pending }
    match s1.nextCheck with
    | none =>
        ({ s1 with nextCheck := RegularCalc.calculate_next_check startT endT nowAbs r }, false)
    | some nc =>
        if nc < nowAbs then
          ({ s1 with nextCheck := RegularCalc.calculate_next_check startT endT nowAbs r }, false)
        else (s1, false)

/-- The body of the per-schedule `try` block of Scheduler._check_schedules:
parse the window strings (an unparseable string raises, modelled by
`Except.error`, before any field of the schedule has been mutated), then
run the matching window logic. -/
def processOne (now : DT) (dlActive : Option String → Bool) (r : Int) (s : Sched) :
    Except Unit Sched :=
  if s.daily then
    match s.startTime, s.endTime with
    | some a, some b => Except.ok (check_daily_schedule s a b now dlActive r).1
    | _, _ => Except.error ()
  else
    match s.startTime, s.endTime with
    | some a, some b => Except.ok (check_regular_schedule s a b now.abs dlActive r).1
    | _, _ => Except.error ()

/-- One schedule as handled by one iteration of the loop in
Scheduler._check_schedules: completed non-daily schedules are skipped, and
an exception from the body is caught, leaving the schedule in the list
unchanged. -/
def stepOne (now : DT) (dlActive : Option String → Bool) (r : Int) (s : Sched) : Sched :=
  if s.status = Status.completed ∧ s.daily = false then s
  else
    match processOne now dlActive r s with
    | Except.ok s2 => s2
    | Except.error _ => s

/-- Observable events of one tick: per schedule (by position) either a
skip, a normal evaluation, or a caught-and-logged error; plus the calls to
save_schedules. -/
inductive TickEvent where
  | skipped (i : Nat)
  | processed (i : Nat)
  | errorLogged (i : Nat)
  | saved
deriving DecidableEq, Repr

/-- The loop of Scheduler._check_schedules (scheduler.py lines 256-341)
over the tail of the schedule list starting at position `i`, returning the
updated schedules together with the emitted events. -/
def check_schedules_from (now : DT) (dlActive : Option String → Bool) (r : Int) :
    List Sched → Nat → List Sched × List TickEvent
  | [], _ => ([], [])
  | s :: rest, i =>
    let tail := check_schedules_from now dlActive r rest (i + 1)
    if s.status = Status.completed ∧ s.daily = false then
      (s :: tail.1, TickEvent.skipped i :: tail.2)
    else
      match processOne now dlActive r s with
      | Except.ok s2 => (s2 :: tail.1, TickEvent.processed i :: tail.2)
      | Except.error _ => (s :: tail.1, TickEvent.errorLogged i :: tail.2)

/-- Scheduler._check_schedules, one full tick: iterate every schedule,
then persist the whole list exactly once (the single `save_schedules()`
call after the loop). -/
def check_schedules (l : List Sched) (now : DT) (dlActive : Option String → Bool)
    (r : Int) : List Sched × List TickEvent :=
  let body := check_schedules_from now dlActive r l 0
  (body.1, body.2 ++ [TickEvent.saved])

end Scheduler

namespace BrowserQueue

/-!
Model of BrowserService (src/app/services/browser_service.py).

`start_browser` enqueues a request and records a placeholder with status
`queued` in `active_browsers`. The single queue-processor thread
(`_process_browser_queue`, lines 82-130) repeatedly: takes the next
request, flips its placeholder to `launching` (lines 97-100), calls
`_ensure_chrome_closed` (line 103) which closes every tracked non-queued
session, and only then launches the browser, after which the session is a
live detector (modelled as status `running`). A session can also be closed
at any time by `close_browser` (a check task or the user). Because the
worker is a single thread, its behaviour is a sequential sequence of these
three steps; interleaving with external closes is captured by extra steps.
-/

/-- Status of a correlation id in `active_browsers`: `queued` and
`launching` are the dict placeholders, `running` is a launched
StreamDetector, `closedOrAbsent` means not tracked (closed, failed, or
never requested). -/
inductive SessStatus where
  | queued
  | launching
  | running
  | closedOrAbsent
deriving DecidableEq, Repr

/-- Position of the queue-processor thread inside its loop body:
between `get` and `_ensure_chrome_closed`; or between
`_ensure_chrome_closed` and `_launch_browser_internal`; or at the top of
the loop. -/
inductive Phase where
  | idle
  | gotReq (i : Nat)
  | cleaned (i : Nat)
deriving DecidableEq, Repr

/-- Global state: the status of every correlation id, the pending FIFO
queue, and the worker phase. -/
structure QState where
  sess : Nat → SessStatus
  pending : List Nat
  phase : Phase

/-- Update the status of one correlation id. -/
def setSess (f : Nat → SessStatus) (i : Nat) (st : SessStatus) : Nat → SessStatus :=
  fun j => if j = i then st else f j

/-- `_ensure_chrome_closed` (lines 132-186): every tracked non-queued
session (a launched detector) is closed; queued and launching placeholders
are dicts and are skipped. -/
def closeRunning (f : Nat → SessStatus) : Nat → SessStatus :=
  fun j => if f j = SessStatus.running then SessStatus.closedOrAbsent else f j

/-- One atomic step of the system around the browser queue. -/
inductive QStep : QState → QState → Prop where
  /-- Worker takes the next request and marks it `launching`
  (lines 90-100). -/
  | dequeue (f : Nat → SessStatus) (i : Nat) (rest : List Nat) :
      QStep ⟨f, i :: rest, Phase.idle⟩
            ⟨setSess f i SessStatus.launching, rest, Phase.gotReq i⟩
  /-- Worker runs `_ensure_chrome_closed` (line 103), closing every live
  session and waiting for the processes to vacate. -/
  | ensureClosed (f : Nat → SessStatus) (p : List Nat) (i : Nat) :
      QStep ⟨f, p, Phase.gotReq i⟩ ⟨closeRunning f, p, Phase.cleaned i⟩
  /-- Worker runs `_launch_browser_internal` successfully (lines 106-121):
  the request becomes a live detector. -/
  | launch (f : Nat → SessStatus) (p : List Nat) (i : Nat) :
      QStep ⟨f, p, Phase.cleaned i⟩ ⟨setSess f i SessStatus.running, p, Phase.idle⟩
  /-- `_launch_browser_internal` fails: the entry is deleted
  (lines 208-212). -/
  | launchFail (f : Nat → SessStatus) (p : List Nat) (i : Nat) :
      QStep ⟨f, p, Phase.cleaned i⟩
            ⟨setSess f i SessStatus.closedOrAbsent, p, Phase.idle⟩
  /-- `close_browser` called concurrently on a live session
  (lines 214-239). -/
  | closeExternal (f : Nat → SessStatus) (p : List Nat) (ph : Phase) (j : Nat) :
      f j = SessStatus.running →
      QStep ⟨f, p, ph⟩ ⟨setSess f j SessStatus.closedOrAbsent, p, ph⟩

/-- Initial state after N simultaneously-due schedules called
`start_browser`: all their ids queued, worker idle, nothing launched. -/
def initQ (l : List Nat) : QState :=
  ⟨fun i => if i ∈ l then SessStatus.queued else SessStatus.closedOrAbsent,
   l, Phase.idle⟩

/-- At most one live (launched) browser session exists. -/
def AtMostOneRunning (s : QState) : Prop :=
  ∀ i j, s.sess i = SessStatus.running → s.sess j = SessStatus.running → i = j

/-- Right after `_ensure_chrome_closed`, nothing is live: the next launch
is admitted only into a fully vacated state. -/
def CleanBeforeLaunch (s : QState) : Prop :=
  ∀ i, s.phase = Phase.cleaned i → ∀ j, s.sess j ≠ SessStatus.running

/-- The single-flight invariant that the queue processor maintains. -/
def QInv (s : QState) : Prop := AtMostOneRunning s ∧ CleanBeforeLaunch s

end BrowserQueue

namespace AddSchedule

/-!
Model of Scheduler.add_schedule (scheduler.py lines 60-84): the dict
literal built there, as an ordered association list of JSON values. The
`next_check` value is the result of the `_update_next_check` call made
before the record is appended; it is passed in here already computed.
-/

/-- A JSON value as stored in the schedules file. -/
inductive JVal where
  | str (v : String)
  | bool (v : Bool)
  | null
deriving DecidableEq, Repr

/-- The record built by Scheduler.add_schedule, key by key in source
order, after its `_update_next_check` call filled in `next_check`. -/
def add_schedule_record (id url : String) (name : Option String)
    (resolution framerate fmt : String) (startTime endTime : String)
    (rep daily : Bool) (createdAt : String) (nextCheck : Option String) :
    List (String × JVal) :=
  [("id", JVal.str id),
   ("url", JVal.str url),
   ("name", match name with | some n => JVal.str n | none => JVal.null),
   ("resolution", JVal.str resolution),
   ("framerate", JVal.str framerate),
   ("format", JVal.str fmt),
   ("start_time", JVal.str startTime),
   ("end_time", JVal.str endTime),
   ("repeat", JVal.bool rep),
   ("daily", JVal.bool daily),
   ("status", JVal.str "pending"),
   ("next_check", match nextCheck with | some n => JVal.str n | none => JVal.null),
   ("last_check", JVal.null),
   ("created_at", JVal.str createdAt)]

/-- The keys of a record. -/
def recordKeys (rec : List (String × JVal)) : List String := rec.map Prod.fst

/-- Python `record.get(key)`: the first value stored under the key, if
any. -/
def dictGet (rec : List (String × JVal)) (k : String) : Option JVal :=
  (rec.find? (fun p => p.1 == k)).map Prod.snd

/-- The field list enumerated by the claim (C9). -/
def claimedFields : List String :=
  ["id", "url", "name", "resolution", "framerate", "format", "daily", "repeat",
   "status", "next_check", "last_check", "active_browser_id", "manual_stop",
   "created_at"]

end AddSchedule

namespace Removal

/-- Scheduler.remove_schedule (scheduler.py lines 86-91): filter out every
schedule with the given id, persist, and return True unconditionally. -/
def scheduler_remove_schedule (l : List Sched) (sid : String) : List Sched × Bool :=
  (l.filter (fun s => s.sid != sid), true)

/-- ScheduleRepository.remove_schedule
(schedule_repository.py lines 99-120): filter, and report whether the list
shrank; when nothing matched, nothing is saved and False is returned. -/
def repository_remove_schedule (l : List Sched) (sid : String) : List Sched × Bool :=
  let l2 := l.filter (fun s => s.sid != sid)
  if l2.length < l.length then (l2, true) else (l, false)

end Removal

namespace Examples

/-- Download-status signal reporting every download as gone
(crash condition). -/
def dlGone : Option String → Bool := fun _ => false

/-- Daily schedule 10:00-12:00 whose download has been recorded as started
and then manually stopped by the operator (`manual_stop = true`), with the
tracked browser id still set. -/
def c1Sched : Sched :=
  { sid := "s1", daily := true, rep := false,
    startTime := some 600, endTime := some 720,
    status := Status.downloadStarted, nextCheck := none, lastCheck := none,
    activeBrowserId := some "b1", manualStop := true }

/-- Daily schedule with the midnight-spanning window 23:00-01:00
(1380 and 60 minutes of day), currently active. -/
def c3Sched : Sched :=
  { sid := "s3", daily := true, rep := false,
    startTime := some 1380, endTime := some 60,
    status := Status.active, nextCheck := some 1440, lastCheck := some 1400,
    activeBrowserId := none, manualStop := false }

/-- One-shot regular schedule (window minutes 0 to 100) in status
download_started. -/
def c4Sched : Sched :=
  { sid := "s4", daily := false, rep := false,
    startTime := some 0, endTime := some 100,
    status := Status.downloadStarted, nextCheck := some 50, lastCheck := none,
    activeBrowserId := some "b4", manualStop := false }

/-- A schedule whose window strings do not parse (malformed data): the
per-schedule body raises before mutating anything. -/
def c8Bad : Sched :=
  { sid := "bad", daily := true, rep := false,
    startTime := none, endTime := none,
    status := Status.pending, nextCheck := none, lastCheck := none,
    activeBrowserId := none, manualStop := false }

/-- A plain well-formed pending schedule. -/
def c10Sched : Sched :=
  { sid := "a", daily := false, rep := false,
    startTime := some 0, endTime := some 10,
    status := Status.pending, nextCheck := none, lastCheck := none,
    activeBrowserId := none, manualStop := false }

end Examples

namespace BrowserQueue

/-- Two simultaneously-due schedules queued their launch requests: ids 1
and 2. -/
def exSess0 : Nat → SessStatus := (initQ [1, 2]).sess

/-- Worker picked request 1 and flipped it to launching. -/
def exState1 : QState := ⟨setSess exSess0 1 SessStatus.launching, [2], Phase.gotReq 1⟩

/-- Worker finished `_ensure_chrome_closed` for request 1. -/
def exState2 : QState := ⟨closeRunning exState1.sess, [2], Phase.cleaned 1⟩

/-- Request 1 launched: its session is live. -/
def exState3 : QState := ⟨setSess exState2.sess 1 SessStatus.running, [2], Phase.idle⟩

/-- Worker picked request 2 and flipped it to launching while the session
of request 1 is still live (the close happens only in the next
`_ensure_chrome_closed` call). -/
def exState4 : QState := ⟨setSess exState3.sess 2 SessStatus.launching, [], Phase.gotReq 2⟩

end BrowserQueue

namespace Examples

/-- Weekly repeating regular schedule with window minutes 600 to 720 of
day 0; reading day 0 as 2024-01-01, this is start 2024-01-01T10:00 and end
2024-01-01T12:00. -/
def c6Sched : Sched :=
  { sid := "s6", daily := false, rep := true,
    startTime := some 600, endTime := some 720,
    status := Status.active, nextCheck := some 650, lastCheck := none,
    activeBrowserId := none, manualStop := false }

end Examples

/-- The regular calculator inside the window returns now plus the draw,
clamped to the window end (time_calculator.py lines 285-292). -/
theorem regular_in_window_eq (startT endT nowAbs r : Int)
    (h1 : startT ≤ nowAbs) (h2 : nowAbs ≤ endT) :
    RegularCalc.calculate_next_check startT endT nowAbs r
      = some (if endT < nowAbs + r then endT else nowAbs + r) := by
  simp only [RegularCalc.calculate_next_check]
  rw [if_neg (by omega), if_pos ⟨h1, h2⟩]

/-- The daily calculator inside the resolved window returns now plus the
draw, clamped to the resolved window end (time_calculator.py lines
177-184). -/
theorem daily_in_window_eq (startM endM : Int) (now : DT) (r : Int)
    (h1 : (DailyCalc.resolveWindow startM endM now).1 ≤ now.abs)
    (h2 : now.abs ≤ (DailyCalc.resolveWindow startM endM now).2) :
    DailyCalc.calculate_next_check startM endM now r
      = some (if (DailyCalc.resolveWindow startM endM now).2 < now.abs + r
              then (DailyCalc.resolveWindow startM endM now).2 else now.abs + r) := by
  simp only [DailyCalc.calculate_next_check]
  rw [if_neg (by omega), if_pos ⟨h1, h2⟩]

/-- For a non-completed, non-daily schedule with parseable window strings,
one loop iteration is exactly the regular-branch body. -/
theorem stepOne_regular (s : Sched) (startT endT : Int) (now : DT)
    (dl : Option String → Bool) (r : Int)
    (hdaily : s.daily = false) (hncompl : s.status ≠ Status.completed)
    (hst : s.startTime = some startT) (hen : s.endTime = some endT) :
    Scheduler.stepOne now dl r s
      = (Scheduler.check_regular_schedule s startT endT now.abs dl r).1 := by
  simp [Scheduler.stepOne, Scheduler.processOne, hdaily, hncompl, hst, hen]

/-- C1: for a schedule in status download_started whose tracked download
is no longer reported active, the execution-loop tick is claimed to honour
manual_stop = true by advancing the window and not auto-resuming; the code
(scheduler.py lines 388-400, and likewise 289-301) never consults
manual_stop and auto-resumes unconditionally. Evaluated at the failing
input: daily 10:00-12:00 schedule, now 11:00, download gone,
manual_stop = true: the tick sets status back to active, keeps
manual_stop = true, and dispatches a fresh check. -/
theorem c1_manual_stop_ignored_by_tick :
    Examples.c1Sched.status = Status.downloadStarted
    ∧ Examples.c1Sched.manualStop = true
    ∧ Examples.dlGone Examples.c1Sched.activeBrowserId = false
    ∧ (Scheduler.stepOne ⟨0, 660⟩ Examples.dlGone 6 Examples.c1Sched).status = Status.active
    ∧ (Scheduler.stepOne ⟨0, 660⟩ Examples.dlGone 6 Examples.c1Sched).manualStop = true
    ∧ (Scheduler.check_daily_schedule Examples.c1Sched 600 720 ⟨0, 660⟩
        Examples.dlGone 6).2 = true := by
  decide

/-- C4 counterexample: a non-daily, non-repeating schedule in status
download_started, past its window end (end minute 100, now minute 200), is
NOT transitioned to completed by the tick: the code guards the completed
assignment with status != download_started (scheduler.py line 281). -/
theorem c4_download_started_not_completed :
    Examples.c4Sched.status = Status.downloadStarted
    ∧ Examples.c4Sched.rep = false ∧ Examples.c4Sched.daily = false
    ∧ Examples.c4Sched.endTime = some 100
    ∧ (100 : Int) < (DT.mk 0 200).abs
    ∧ (Scheduler.stepOne ⟨0, 200⟩ Examples.dlGone 6 Examples.c4Sched).status
        = Status.downloadStarted
    ∧ ¬ (Scheduler.stepOne ⟨0, 200⟩ Examples.dlGone 6 Examples.c4Sched).status
        = Status.completed := by
  decide

/-- C4 (amended): for every non-daily, non-repeating schedule past its
window end, the tick transitions status active to completed and clears
active_browser_id and manual_stop in that same tick; a schedule in status
download_started keeps that status (only the flags are cleared). -/
theorem c4_one_shot_window_end (s : Sched) (startT endT : Int) (now : DT)
    (dl : Option String → Bool) (r : Int)
    (hdaily : s.daily = false) (hrep : s.rep = false)
    (hst : s.startTime = some startT) (hen : s.endTime = some endT)
    (hpass : endT < now.abs)
    (hact : s.status = Status.active ∨ s.status = Status.downloadStarted) :
    (s.status = Status.active →
      (Scheduler.stepOne now dl r s).status = Status.completed)
    ∧ (s.status = Status.downloadStarted →
      (Scheduler.stepOne now dl r s).status = Status.downloadStarted)
    ∧ (Scheduler.stepOne now dl r s).activeBrowserId = none
    ∧ (Scheduler.stepOne now dl r s).manualStop = false := by
  have hncompl : s.status ≠ Status.completed := by
    rcases hact with h | h <;> simp [h]
  rw [stepOne_regular s startT endT now dl r hdaily hncompl hst hen]
  simp only [Scheduler.check_regular_schedule]
  rw [if_pos hpass, hrep]
  rcases hact with h | h <;> simp [h]

/-- C4 witness: the amended theorem applied at the concrete failing input
of the counterexample. -/
theorem c4_one_shot_window_end_witness :
    (Scheduler.stepOne ⟨0, 200⟩ Examples.dlGone 6 Examples.c4Sched).activeBrowserId = none
    ∧ (Scheduler.stepOne ⟨0, 200⟩ Examples.dlGone 6 Examples.c4Sched).manualStop = false := by
  have h := c4_one_shot_window_end Examples.c4Sched 0 100 ⟨0, 200⟩ Examples.dlGone 6
    (by decide) (by decide) (by decide) (by decide) (by decide) (Or.inr (by decide))
  exact ⟨h.2.2.1, h.2.2.2⟩

/-- C5 counterexample: two successive calls of calculate_next_check at the
same now (minute 100, window 0 to 10000) with admissible draws 8 then 5
produce 108 then 105: the second result is strictly earlier than the
first, refuting same-or-later. -/
theorem c5_second_call_can_be_earlier :
    (5 : Int) ≤ 8 ∧ (5 : Int) ≤ 5 ∧ (8 : Int) ≤ 8
    ∧ RegularCalc.calculate_next_check 0 10000 100 8 = some 108
    ∧ RegularCalc.calculate_next_check 0 10000 100 5 = some 105
    ∧ (105 : Int) < 108 := by
  decide

/-- C5 (amended): at a fixed now with no other state change, repeated
invocation of calculate_next_check is deterministic (hence idempotent)
whenever now is outside the window, for both calculators; when now lies
inside the (resolved) window each result is at least now and never exceeds
the window end, but a second draw may produce an earlier timestamp than the
first. -/
theorem c5_repeated_invocation (startT endT nowAbs startM endM : Int) (now : DT)
    (r1 r2 : Int) (h15 : 5 ≤ r1) (h18 : r1 ≤ 8) (h25 : 5 ≤ r2) (h28 : r2 ≤ 8) :
    (¬ (startT ≤ nowAbs ∧ nowAbs ≤ endT) →
      RegularCalc.calculate_next_check startT endT nowAbs r1
        = RegularCalc.calculate_next_check startT endT nowAbs r2)
    ∧ (startT ≤ nowAbs → nowAbs ≤ endT →
        ∀ t, RegularCalc.calculate_next_check startT endT nowAbs r2 = some t →
          nowAbs ≤ t ∧ t ≤ endT)
    ∧ (¬ ((DailyCalc.resolveWindow startM endM now).1 ≤ now.abs
          ∧ now.abs ≤ (DailyCalc.resolveWindow startM endM now).2) →
        DailyCalc.calculate_next_check startM endM now r1
          = DailyCalc.calculate_next_check startM endM now r2)
    ∧ ((DailyCalc.resolveWindow startM endM now).1 ≤ now.abs →
        now.abs ≤ (DailyCalc.resolveWindow startM endM now).2 →
        ∀ t, DailyCalc.calculate_next_check startM endM now r2 = some t →
          now.abs ≤ t ∧ t ≤ (DailyCalc.resolveWindow startM endM now).2) := by
  refine ⟨?_, ?_, ?_, ?_⟩
  · intro hout
    simp only [RegularCalc.calculate_next_check]
    split_ifs <;> rfl
  · intro h1 h2 t ht
    rw [regular_in_window_eq startT endT nowAbs r2 h1 h2] at ht
    split_ifs at ht <;> (injection ht with ht; omega)
  · intro hout
    simp only [DailyCalc.calculate_next_check]
    split_ifs <;> rfl
  · intro h1 h2 t ht
    rw [daily_in_window_eq startM endM now r2 h1 h2] at ht
    split_ifs at ht <;> (injection ht with ht; omega)

/-- C5 witness: the amended theorem applied before the window (start 100,
now 50), where both draws give the identical result. -/
theorem c5_repeated_invocation_witness :
    RegularCalc.calculate_next_check 100 200 50 8
      = RegularCalc.calculate_next_check 100 200 50 5 :=
  (c5_repeated_invocation 100 200 50 0 0 ⟨0, 0⟩ 8 5 (by decide) (by decide)
    (by decide) (by decide)).1 (by decide)

/-- C6: for every regular schedule with repeat = true, once now passes
end_time the execution loop advances start_time and end_time by exactly
seven days (7 * 1440 minutes) and resets status to pending
(scheduler.py lines 276-279 and 537-554). -/
theorem c6_weekly_reschedule (s : Sched) (startT endT : Int) (now : DT)
    (dl : Option String → Bool) (r : Int)
    (hdaily : s.daily = false) (hrep : s.rep = true)
    (hst : s.startTime = some startT) (hen : s.endTime = some endT)
    (hncompl : s.status ≠ Status.completed)
    (hpass : endT < now.abs) :
    (Scheduler.stepOne now dl r s).startTime = some (startT + 7 * dayLen)
    ∧ (Scheduler.stepOne now dl r s).endTime = some (endT + 7 * dayLen)
    ∧ (Scheduler.stepOne now dl r s).status = Status.pending := by
  rw [stepOne_regular s startT endT now dl r hdaily hncompl hst hen]
  simp only [Scheduler.check_regular_schedule]
  rw [if_pos hpass, hrep]
  simp [Scheduler.reschedule_next_week]

/-- C6 witness: reading day 0 as 2024-01-01, the schedule with start
2024-01-01T10:00 (minute 600) and end 2024-01-01T12:00 (minute 720), once
now passes the end (minute 721), moves to 2024-01-08T10:00 (minute 10680)
and 2024-01-08T12:00 (minute 10800) with status pending. -/
theorem c6_weekly_reschedule_witness :
    (Scheduler.stepOne ⟨0, 721⟩ Examples.dlGone 6 Examples.c6Sched).startTime = some 10680
    ∧ (Scheduler.stepOne ⟨0, 721⟩ Examples.dlGone 6 Examples.c6Sched).endTime = some 10800
    ∧ (Scheduler.stepOne ⟨0, 721⟩ Examples.dlGone 6 Examples.c6Sched).status
        = Status.pending := by
  exact c6_weekly_reschedule Examples.c6Sched 600 720 ⟨0, 721⟩ Examples.dlGone 6
    (by decide) (by decide) (by decide) (by decide) (by decide) (by decide)

/-- C7: for both calculators, when now lies inside the (resolved) window,
calculate_next_check returns a time at most 8 minutes after now, clamped
so it never exceeds the window end, and at least 5 minutes after now
unless the clamp fired (result equal to the window end); for every now
strictly before the window start, the result is exactly the window start. -/
theorem c7_next_check_cadence (startT endT nowAbs startM endM : Int) (now : DT)
    (r : Int) (hr5 : 5 ≤ r) (hr8 : r ≤ 8) :
    (nowAbs < startT →
      RegularCalc.calculate_next_check startT endT nowAbs r = some startT)
    ∧ (startT ≤ nowAbs → nowAbs ≤ endT →
        ∀ t, RegularCalc.calculate_next_check startT endT nowAbs r = some t →
          t ≤ endT ∧ t ≤ nowAbs + 8 ∧ (nowAbs + 5 ≤ t ∨ t = endT))
    ∧ (now.abs < (DailyCalc.resolveWindow startM endM now).1 →
        DailyCalc.calculate_next_check startM endM now r
          = some (DailyCalc.resolveWindow startM endM now).1)
    ∧ ((DailyCalc.resolveWindow startM endM now).1 ≤ now.abs →
        now.abs ≤ (DailyCalc.resolveWindow startM endM now).2 →
        ∀ t, DailyCalc.calculate_next_check startM endM now r = some t →
          t ≤ (DailyCalc.resolveWindow startM endM now).2 ∧ t ≤ now.abs + 8
            ∧ (now.abs + 5 ≤ t ∨ t = (DailyCalc.resolveWindow startM endM now).2)) := by
  refine ⟨?_, ?_, ?_, ?_⟩
  · intro hbefore
    simp only [RegularCalc.calculate_next_check]
    rw [if_pos hbefore]
  · intro h1 h2 t ht
    rw [regular_in_window_eq startT endT nowAbs r h1 h2] at ht
    split_ifs at ht <;> (injection ht with ht; omega)
  · intro hbefore
    simp only [DailyCalc.calculate_next_check]
    rw [if_pos hbefore]
  · intro h1 h2 t ht
    rw [daily_in_window_eq startM endM now r h1 h2] at ht
    split_ifs at ht <;> (injection ht with ht; omega)

/-- One tick updates the schedules pointwise: the result at each position
depends only on the schedule at that position, so an error on one schedule
cannot affect how any other schedule is evaluated. -/
theorem check_schedules_from_fst (now : DT) (dl : Option String → Bool) (r : Int)
    (l : List Sched) (i : Nat) :
    (Scheduler.check_schedules_from now dl r l i).1
      = l.map (Scheduler.stepOne now dl r) := by
  induction l generalizing i with
  | nil => rfl
  | cons s rest ih =>
    simp only [Scheduler.check_schedules_from, Scheduler.stepOne, List.map]
    by_cases hskip : s.status = Status.completed ∧ s.daily = false
    · rw [if_pos hskip, if_pos hskip]
      simp [ih]
    · rw [if_neg hskip, if_neg hskip]
      cases hp : Scheduler.processOne now dl r s <;> simp [ih]

/-- The loop body itself never persists: every save event comes from the
single save_schedules call after the loop. -/
theorem saved_not_in_from (now : DT) (dl : Option String → Bool) (r : Int) :
    ∀ (l : List Sched) (i : Nat),
      Scheduler.TickEvent.saved ∉ (Scheduler.check_schedules_from now dl r l i).2 := by
  intro l
  induction l with
  | nil =>
    intro i h
    simp [Scheduler.check_schedules_from] at h
  | cons s rest ih =>
    intro i h
    simp only [Scheduler.check_schedules_from] at h
    by_cases hskip : s.status = Status.completed ∧ s.daily = false
    · rw [if_pos hskip] at h
      rcases List.mem_cons.mp h with h | h
      · simp at h
      · exact ih _ h
    · rw [if_neg hskip] at h
      cases hp : Scheduler.processOne now dl r s <;> rw [hp] at h <;>
        (rcases List.mem_cons.mp h with h | h
         · simp at h
         · exact ih _ h)

/-- C8: for every schedule list processed in one tick, evaluation is
pointwise (so a raising schedule never aborts the batch and every other
schedule is still evaluated from its own state alone), the list keeps its
length, a schedule whose processing raises is left exactly as it was
(skipped for this tick, not removed), and the full list is persisted
exactly once, at the end of the tick. -/
theorem c8_error_isolation (l : List Sched) (now : DT)
    (dl : Option String → Bool) (r : Int) :
    (Scheduler.check_schedules l now dl r).1 = l.map (Scheduler.stepOne now dl r)
    ∧ (Scheduler.check_schedules l now dl r).1.length = l.length
    ∧ (∀ s, Scheduler.processOne now dl r s = Except.error () →
        Scheduler.stepOne now dl r s = s)
    ∧ (Scheduler.check_schedules l now dl r).2.count Scheduler.TickEvent.saved = 1
    ∧ (Scheduler.check_schedules l now dl r).2.getLast? = some Scheduler.TickEvent.saved := by
  refine ⟨?_, ?_, ?_, ?_, ?_⟩
  · simp [Scheduler.check_schedules, check_schedules_from_fst]
  · simp [Scheduler.check_schedules, check_schedules_from_fst]
  · intro s hp
    simp [Scheduler.stepOne, hp]
  · simp only [Scheduler.check_schedules, List.count_append]
    rw [List.count_eq_zero.mpr (saved_not_in_from now dl r l 0)]
    rfl
  · simp only [Scheduler.check_schedules]
    exact List.getLast?_concat _

/-- C8 witness: a tick over a single malformed schedule still evaluates
pointwise, leaves the malformed schedule unchanged, and saves exactly
once. -/
theorem c8_error_isolation_witness :
    (Scheduler.check_schedules [Examples.c8Bad] ⟨0, 0⟩ Examples.dlGone 6).1
        = [Examples.c8Bad].map (Scheduler.stepOne ⟨0, 0⟩ Examples.dlGone 6)
    ∧ Scheduler.stepOne ⟨0, 0⟩ Examples.dlGone 6 Examples.c8Bad = Examples.c8Bad
    ∧ (Scheduler.check_schedules [Examples.c8Bad] ⟨0, 0⟩ Examples.dlGone 6).2.count
        Scheduler.TickEvent.saved = 1 := by
  have h := c8_error_isolation [Examples.c8Bad] ⟨0, 0⟩ Examples.dlGone 6
  exact ⟨h.1, h.2.2.1 Examples.c8Bad rfl, h.2.2.2.1⟩

/-- C3 counterexample: daily schedule 23:00-01:00 (minutes 1380 and 60) at
22:00 of day 1 (now = ⟨1, 1320⟩): the code anchors the window to the
yesterday start (absolute minute 1380 = day 0, 23:00) through the today
end (minute 1500 = day 1, 01:00); now is strictly past that end and not
before its start, so check_schedule takes the window-passed branch
(resetting the active schedule to pending, clearing last_check, and
recomputing next_check to the upcoming today start, minute 2820 = day 1,
23:00) -- not the before-window branch the claim asserts. -/
theorem c3_2200_is_window_passed :
    DailyCalc.resolveWindow 1380 60 ⟨1, 1320⟩ = (1380, 1500)
    ∧ (1500 : Int) < (DT.mk 1 1320).abs
    ∧ ¬ ((DT.mk 1 1320).abs < 1380)
    ∧ (Scheduler.check_daily_schedule Examples.c3Sched 1380 60 ⟨1, 1320⟩
        Examples.dlGone 6).1.status = Status.pending
    ∧ (Scheduler.check_daily_schedule Examples.c3Sched 1380 60 ⟨1, 1320⟩
        Examples.dlGone 6).1.lastCheck = none
    ∧ (Scheduler.check_daily_schedule Examples.c3Sched 1380 60 ⟨1, 1320⟩
        Examples.dlGone 6).1.nextCheck = some 2820 := by
  decide

/-- C3 (amended): for every daily schedule with a midnight-spanning window
whose start clock-time is after 00:30 and whose end clock-time is at least
00:30, check_schedule at now = 00:30 resolves the window as the
yesterday start through the today end and treats now as inside it (a
pending schedule with no next_check is activated and dispatched); at
now = 22:00 with the example window 23:00-01:00 the code also anchors to
the yesterday start through the today end, finds now strictly past that
end and not before its start, and therefore treats it as a passed window
(resetting an active schedule to pending with next_check at the upcoming
today start), not as before-window. -/
theorem c3_spanning_window (d startM endM : Int)
    (hspan : endM < startM) (hmax : startM ≤ 1439)
    (hs30 : 30 < startM) (he30 : 30 ≤ endM) :
    (DailyCalc.resolveWindow startM endM ⟨d, 30⟩
        = ((d - 1) * dayLen + startM, d * dayLen + endM)
      ∧ (d - 1) * dayLen + startM ≤ (DT.mk d 30).abs
      ∧ (DT.mk d 30).abs ≤ d * dayLen + endM
      ∧ (∀ s : Sched, s.status = Status.pending → s.nextCheck = none →
          ∀ dl r, (Scheduler.check_daily_schedule s startM endM ⟨d, 30⟩ dl r).1.status
              = Status.active
            ∧ (Scheduler.check_daily_schedule s startM endM ⟨d, 30⟩ dl r).2 = true))
    ∧ (DailyCalc.resolveWindow 1380 60 ⟨d, 1320⟩
        = ((d - 1) * dayLen + 1380, d * dayLen + 60)
      ∧ d * dayLen + 60 < (DT.mk d 1320).abs
      ∧ ¬ ((DT.mk d 1320).abs < (d - 1) * dayLen + 1380)
      ∧ (∀ s : Sched, s.status = Status.active →
          ∀ dl r, (Scheduler.check_daily_schedule s 1380 60 ⟨d, 1320⟩ dl r).1.status
              = Status.pending
            ∧ (Scheduler.check_daily_schedule s 1380 60 ⟨d, 1320⟩ dl r).1.nextCheck
              = some (d * dayLen + 1380))) := by
  have hw : DailyCalc.resolveWindow startM endM ⟨d, 30⟩
      = ((d - 1) * dayLen + startM, d * dayLen + endM) := by
    simp [DailyCalc.resolveWindow, hspan, hs30]
  have hw2 : DailyCalc.resolveWindow 1380 60 ⟨d, 1320⟩
      = ((d - 1) * dayLen + 1380, d * dayLen + 60) := by
    simp [DailyCalc.resolveWindow]
  refine ⟨⟨hw, ?_, ?_, ?_⟩, ⟨hw2, ?_, ?_, ?_⟩⟩
  · simp only [DT.abs, dayLen]; omega
  · simp only [DT.abs, dayLen]; omega
  · intro s hst hnc dl r
    simp only [Scheduler.check_daily_schedule, hw]
    rw [if_pos ⟨by simp only [DT.abs, dayLen]; omega, by simp only [DT.abs, dayLen]; omega⟩]
    simp [hst, hnc]
  · simp only [DT.abs, dayLen]; omega
  · simp only [DT.abs, dayLen]; omega
  · intro s hst dl r
    have hcalc : DailyCalc.calculate_next_check 1380 60 ⟨d, 1320⟩ r
        = some (d * dayLen + 1380) := by
      simp only [DailyCalc.calculate_next_check, hw2]
      rw [if_neg (by simp only [DT.abs, dayLen]; omega),
          if_neg (by simp only [DT.abs, dayLen]; omega)]
      simp [DailyCalc.spansMidnight]
    simp only [Scheduler.check_daily_schedule, hw2]
    rw [if_neg (by simp only [DT.abs, dayLen]; omega),
        if_neg (by simp only [DT.abs, dayLen]; omega)]
    rw [if_pos (Or.inl hst)]
    simp [hcalc]

/-- C3 witness: the amended theorem applied at day 1 with the example
window 23:00-01:00 and a concrete pending schedule at 00:30. -/
theorem c3_spanning_window_witness :
    (Scheduler.check_daily_schedule
        { Examples.c3Sched with status := Status.pending, nextCheck := none }
        1380 60 ⟨1, 30⟩ Examples.dlGone 6).1.status = Status.active
    ∧ (Scheduler.check_daily_schedule
        { Examples.c3Sched with status := Status.pending, nextCheck := none }
        1380 60 ⟨1, 30⟩ Examples.dlGone 6).2 = true := by
  exact ((c3_spanning_window 1 1380 60 (by decide) (by decide) (by decide)
    (by decide)).1.2.2.2
    { Examples.c3Sched with status := Status.pending, nextCheck := none }
    (by decide) (by decide) Examples.dlGone 6)

/-- Every step of the browser-queue system preserves the single-flight
invariant. -/
theorem qinv_step {a b : BrowserQueue.QState}
    (h : BrowserQueue.QInv a) (st : BrowserQueue.QStep a b) : BrowserQueue.QInv b := by
  obtain ⟨h1, h2⟩ := h
  cases st with
  | dequeue f i rest =>
    refine ⟨?_, ?_⟩
    · intro x y hx hy
      simp only [BrowserQueue.setSess] at hx hy
      by_cases hxi : x = i
      · rw [if_pos hxi] at hx; exact absurd hx (by simp)
      · rw [if_neg hxi] at hx
        by_cases hyi : y = i
        · rw [if_pos hyi] at hy; exact absurd hy (by simp)
        · rw [if_neg hyi] at hy; exact h1 x y hx hy
    · intro x hph
      simp at hph
  | ensureClosed f p i =>
    refine ⟨?_, ?_⟩
    · intro x y hx hy
      exfalso
      simp only [BrowserQueue.closeRunning] at hx
      by_cases hfx : f x = BrowserQueue.SessStatus.running
      · rw [if_pos hfx] at hx; exact absurd hx (by simp)
      · rw [if_neg hfx] at hx; exact hfx hx
    · intro x hph y
      simp only [BrowserQueue.closeRunning]
      by_cases hfy : f y = BrowserQueue.SessStatus.running
      · rw [if_pos hfy]; simp
      · rw [if_neg hfy]; exact hfy
  | launch f p i =>
    have hnone := h2 i rfl
    refine ⟨?_, ?_⟩
    · intro x y hx hy
      simp only [BrowserQueue.setSess] at hx hy
      by_cases hxi : x = i
      · by_cases hyi : y = i
        · rw [hxi, hyi]
        · rw [if_neg hyi] at hy; exact absurd hy (hnone y)
      · rw [if_neg hxi] at hx; exact absurd hx (hnone x)
    · intro x hph
      simp at hph
  | launchFail f p i =>
    refine ⟨?_, ?_⟩
    · intro x y hx hy
      simp only [BrowserQueue.setSess] at hx hy
      by_cases hxi : x = i
      · rw [if_pos hxi] at hx; exact absurd hx (by simp)
      · rw [if_neg hxi] at hx
        by_cases hyi : y = i
        · rw [if_pos hyi] at hy; exact absurd hy (by simp)
        · rw [if_neg hyi] at hy; exact h1 x y hx hy
    · intro x hph
      simp at hph
  | closeExternal f p ph j hrun =>
    refine ⟨?_, ?_⟩
    · intro x y hx hy
      simp only [BrowserQueue.setSess] at hx hy
      by_cases hxi : x = j
      · rw [if_pos hxi] at hx; exact absurd hx (by simp)
      · rw [if_neg hxi] at hx
        by_cases hyi : y = j
        · rw [if_pos hyi] at hy; exact absurd hy (by simp)
        · rw [if_neg hyi] at hy; exact h1 x y hx hy
    · intro x hph y
      simp only [BrowserQueue.setSess]
      by_cases hyj : y = j
      · rw [if_pos hyj]; simp
      · rw [if_neg hyj]; exact h2 x hph y

/-- The initial state, with every request still queued and nothing
launched, satisfies the single-flight invariant. -/
theorem qinv_init (l : List Nat) : BrowserQueue.QInv (BrowserQueue.initQ l) := by
  constructor
  · intro x y hx hy
    exfalso
    simp only [BrowserQueue.initQ] at hx
    by_cases hxl : x ∈ l
    · rw [if_pos hxl] at hx; exact absurd hx (by simp)
    · rw [if_neg hxl] at hx; exact absurd hx (by simp)
  · intro x hph
    simp [BrowserQueue.initQ] at hph

/-- C2 counterexample: from two simultaneously queued requests the queue
processor reaches, after launching request 1 and picking up request 2, a
state in which session 1 is running while request 2 already shows status
launching (scheduler marks the new request launching at
browser_service.py lines 97-100 before _ensure_chrome_closed at line 103
closes the previous live session): two distinct sessions are concurrently
in the launching-or-running set, refuting at-most-one in that set. -/
theorem c2_two_sessions_launching_running :
    Relation.ReflTransGen BrowserQueue.QStep (BrowserQueue.initQ [1, 2])
        BrowserQueue.exState4
    ∧ BrowserQueue.exState4.sess 1 = BrowserQueue.SessStatus.running
    ∧ BrowserQueue.exState4.sess 2 = BrowserQueue.SessStatus.launching
    ∧ (1 : Nat) ≠ 2 := by
  refine ⟨?_, by decide, by decide, by decide⟩
  have h01 : BrowserQueue.QStep (BrowserQueue.initQ [1, 2]) BrowserQueue.exState1 :=
    BrowserQueue.QStep.dequeue BrowserQueue.exSess0 1 [2]
  have h12 : BrowserQueue.QStep BrowserQueue.exState1 BrowserQueue.exState2 :=
    BrowserQueue.QStep.ensureClosed BrowserQueue.exState1.sess [2] 1
  have h23 : BrowserQueue.QStep BrowserQueue.exState2 BrowserQueue.exState3 :=
    BrowserQueue.QStep.launch BrowserQueue.exState2.sess [2] 1
  have h34 : BrowserQueue.QStep BrowserQueue.exState3 BrowserQueue.exState4 :=
    BrowserQueue.QStep.dequeue BrowserQueue.exState3.sess 2 []
  exact Relation.ReflTransGen.tail
    (Relation.ReflTransGen.tail
      (Relation.ReflTransGen.tail (Relation.ReflTransGen.single h01) h12) h23) h34

/-- C2 (amended): in every state reachable from any number of
simultaneously queued launch requests, at most one session is actually
live (launched detector), and any launch is admitted only from a state in
which every previously live session has been fully closed (the phase right
after _ensure_chrome_closed has nothing running); consequently, whenever a
step makes session i live, no other session is live immediately before or
after that step. The claimed stronger property, that at most one session
is ever in the launching-or-running set, fails (see the counterexample):
a request is marked launching before the previous live session is
closed. -/
theorem c2_single_flight (l : List Nat) (t u : BrowserQueue.QState)
    (hreach : Relation.ReflTransGen BrowserQueue.QStep (BrowserQueue.initQ l) t) :
    BrowserQueue.QInv t
    ∧ (BrowserQueue.QStep t u → ∀ i, u.sess i = BrowserQueue.SessStatus.running →
        ∀ j, j ≠ i → t.sess j ≠ BrowserQueue.SessStatus.running
          ∧ u.sess j ≠ BrowserQueue.SessStatus.running) := by
  have hinv : BrowserQueue.QInv t := by
    induction hreach with
    | refl => exact qinv_init l
    | tail _ hstep ih => exact qinv_step ih hstep
  refine ⟨hinv, ?_⟩
  intro hstep i hui j hji
  have hu := qinv_step hinv hstep
  refine ⟨?_, fun huj => hji (hu.1 j i huj hui)⟩
  intro htj
  by_cases hti : t.sess i = BrowserQueue.SessStatus.running
  · -- i was already live: then j live too contradicts at-most-one before
    exact hji (hinv.1 j i htj hti)
  · -- i becomes live in this step: only the launch step does that, and it
    -- fires only from the cleaned phase, where nothing is live
    cases hstep with
    | dequeue f k rest =>
      simp only [BrowserQueue.setSess] at hui
      by_cases hik : i = k
      · rw [if_pos hik] at hui; exact absurd hui (by simp)
      · rw [if_neg hik] at hui; exact hti hui
    | ensureClosed f p k =>
      simp only [BrowserQueue.closeRunning] at hui
      by_cases hfi : f i = BrowserQueue.SessStatus.running
      · rw [if_pos hfi] at hui; exact absurd hui (by simp)
      · rw [if_neg hfi] at hui; exact hfi hui
    | launch f p k =>
      simp only [BrowserQueue.setSess] at hui
      by_cases hik : i = k
      · exact hinv.2 k rfl j htj
      · rw [if_neg hik] at hui; exact hti hui
    | launchFail f p k =>
      simp only [BrowserQueue.setSess] at hui
      by_cases hik : i = k
      · rw [if_pos hik] at hui; exact absurd hui (by simp)
      · rw [if_neg hik] at hui; exact hti hui
    | closeExternal f p ph k hk =>
      simp only [BrowserQueue.setSess] at hui
      by_cases hik : i = k
      · rw [if_pos hik] at hui; exact absurd hui (by simp)
      · rw [if_neg hik] at hui; exact hti hui

/-- C2 witness: the amended theorem applied to the initial state of two
simultaneously queued requests, reachable by the empty step sequence. -/
theorem c2_single_flight_witness : BrowserQueue.QInv (BrowserQueue.initQ [1, 2]) :=
  (c2_single_flight [1, 2] (BrowserQueue.initQ [1, 2]) (BrowserQueue.initQ [1, 2])
    Relation.ReflTransGen.refl).1

/-- C9 counterexample: the record built by add_schedule carries the keys
start_time and end_time, which are not in the field list enumerated by the
claim, so the created record does not contain exactly the claimed fields. -/
theorem c9_record_has_window_keys :
    "start_time" ∈ AddSchedule.recordKeys
        (AddSchedule.add_schedule_record "1" "u" none "1080p" "any" "mp4"
          "10:00" "12:00" false true "t0" none)
    ∧ "start_time" ∉ AddSchedule.claimedFields
    ∧ "end_time" ∉ AddSchedule.claimedFields
    ∧ AddSchedule.recordKeys
        (AddSchedule.add_schedule_record "1" "u" none "1080p" "any" "mp4"
          "10:00" "12:00" false true "t0" none)
        ≠ AddSchedule.claimedFields := by
  decide

/-- C9 (amended): every record created by add_schedule contains exactly
the keys id, url, name, resolution, framerate, format, start_time,
end_time, repeat, daily, status, next_check, last_check, created_at (in
that order); status is the string pending and last_check is null;
active_browser_id and manual_stop are absent at creation, which under the
get-with-default access used by the code is equivalent to their documented
defaults (null and false). -/
theorem c9_record_fields (id url : String) (name : Option String)
    (resolution framerate fmt startTime endTime : String) (rep daily : Bool)
    (createdAt : String) (nextCheck : Option String) :
    AddSchedule.recordKeys
        (AddSchedule.add_schedule_record id url name resolution framerate fmt
          startTime endTime rep daily createdAt nextCheck)
      = ["id", "url", "name", "resolution", "framerate", "format", "start_time",
         "end_time", "repeat", "daily", "status", "next_check", "last_check",
         "created_at"]
    ∧ AddSchedule.dictGet
        (AddSchedule.add_schedule_record id url name resolution framerate fmt
          startTime endTime rep daily createdAt nextCheck) "status"
      = some (AddSchedule.JVal.str "pending")
    ∧ AddSchedule.dictGet
        (AddSchedule.add_schedule_record id url name resolution framerate fmt
          startTime endTime rep daily createdAt nextCheck) "last_check"
      = some AddSchedule.JVal.null
    ∧ AddSchedule.dictGet
        (AddSchedule.add_schedule_record id url name resolution framerate fmt
          startTime endTime rep daily createdAt nextCheck) "active_browser_id"
      = none
    ∧ AddSchedule.dictGet
        (AddSchedule.add_schedule_record id url name resolution framerate fmt
          startTime endTime rep daily createdAt nextCheck) "manual_stop"
      = none := by
  exact ⟨rfl, rfl, rfl, rfl, rfl⟩

/-- C10: Scheduler.remove_schedule returns True even when no schedule with
the id exists; it removes every schedule carrying the id and keeps the
rest in their relative order; ScheduleRepository.remove_schedule instead
returns False exactly when the id is not found. -/
theorem c10_remove_semantics (l : List Sched) (sid : String) :
    (Removal.scheduler_remove_schedule l sid).2 = true
    ∧ (∀ s, s ∈ (Removal.scheduler_remove_schedule l sid).1 → s.sid ≠ sid)
    ∧ (Removal.scheduler_remove_schedule l sid).1.Sublist l
    ∧ (∀ s, s ∈ l → s.sid ≠ sid → s ∈ (Removal.scheduler_remove_schedule l sid).1)
    ∧ ((∀ s ∈ l, s.sid ≠ sid) → (Removal.repository_remove_schedule l sid).2 = false)
    ∧ ((∃ s ∈ l, s.sid = sid) → (Removal.repository_remove_schedule l sid).2 = true) := by
  refine ⟨rfl, ?_, ?_, ?_, ?_, ?_⟩
  · intro s hs
    have := (List.mem_filter.mp hs).2
    simpa using this
  · exact List.filter_sublist l
  · intro s hs hne
    exact List.mem_filter.mpr ⟨hs, by simpa using hne⟩
  · intro hnone
    have hfe : l.filter (fun s => s.sid != sid) = l := by
      apply List.filter_eq_self.mpr
      intro a ha
      simpa using hnone a ha
    simp [Removal.repository_remove_schedule, hfe]
  · intro hsome
    rcases hsome with ⟨s, hsl, hsid⟩
    have hlt : (l.filter (fun s => s.sid != sid)).length < l.length := by
      apply List.length_filter_lt_length_iff_exists.mpr
      exact ⟨s, hsl, by simp [hsid]⟩
    simp [Removal.repository_remove_schedule, hlt]

/-- C10 witness: on a one-element list whose schedule does not carry the
requested id, the repository-level removal reports False. -/
theorem c10_remove_semantics_witness :
    (Removal.repository_remove_schedule [Examples.c10Sched] "zzz").2 = false :=
  (c10_remove_semantics [Examples.c10Sched] "zzz").2.2.2.2.1 (by decide)

/-- C7 witness: inside the window (start 0, end 10000, now 100, draw 6)
the result 106 respects all three bounds, and before the window (start
100, now 50) the result is exactly the window start. -/
theorem c7_next_check_cadence_witness :
    ((106 : Int) ≤ 10000 ∧ (106 : Int) ≤ 100 + 8
      ∧ ((100 : Int) + 5 ≤ 106 ∨ (106 : Int) = 10000))
    ∧ RegularCalc.calculate_next_check 100 200 50 6 = some 100 := by
  refine ⟨(c7_next_check_cadence 0 10000 100 0 0 ⟨0, 0⟩ 6 (by decide) (by decide)).2.1
      (by decide) (by decide) 106 (by decide), ?_⟩
  exact (c7_next_check_cadence 100 200 50 0 0 ⟨0, 0⟩ 6 (by decide) (by decide)).1
    (by decide)
